import Mathlib

/-!
# Verification of the SmartSpace agentic payment gateway core

A shallow embedding, in Lean 4, of the decision pipeline of the
agentic payment gateway (decision engine, policy manager, budget
tracker, risk detector, payment executor, audit logging), together
with proofs and refutations of the specification's claims about it.

Python floats that hold currency amounts and scores are modelled as
rationals (`Rat`); Python strings as `String`; Python `None`-able
values as `Option`; Python dicts that are serialized to JSON as an
explicit JSON value type.  SHA-256 is implemented concretely so that
hash-chain statements can be evaluated on concrete inputs.
-/

namespace SmartSpace

/-! ## SHA-256, executable, over byte lists (bytes are `Nat < 256`) -/

namespace SHA256

/-- Truncate to a 32-bit word. -/
def mask32 (x : Nat) : Nat := x % 4294967296

/-- 32-bit right rotation. -/
def rotr (n x : Nat) : Nat := mask32 ((x >>> n) ||| (x <<< (32 - n)))

/-- 32-bit right shift. -/
def shr (n x : Nat) : Nat := x >>> n

/-- The 64 SHA-256 round constants (FIPS 180-4), written in decimal. -/
def K : List Nat :=
  [1116352408, 1899447441, 3049323471, 3921009573, 961987163,
   1508970993, 2453635748, 2870763221, 3624381080, 310598401,
   607225278, 1426881987, 1925078388, 2162078206, 2614888103,
   3248222580, 3835390401, 4022224774, 264347078, 604807628,
   770255983, 1249150122, 1555081692, 1996064986, 2554220882,
   2821834349, 2952996808, 3210313671, 3336571891, 3584528711,
   113926993, 338241895, 666307205, 773529912, 1294757372,
   1396182291, 1695183700, 1986661051, 2177026350, 2456956037,
   2730485921, 2820302411, 3259730800, 3345764771, 3516065817,
   3600352804, 4094571909, 275423344, 430227734, 506948616,
   659060556, 883997877, 958139571, 1322822218, 1537002063,
   1747873779, 1955562222, 2024104815, 2227730452, 2361852424,
   2428436474, 2756734187, 3204031479, 3329325298]

/-- Initial hash state (FIPS 180-4), written in decimal. -/
def H0 : List Nat :=
  [1779033703, 3144134277, 1013904242, 2773480762, 1359893119,
   2600822924, 528734635, 1541459225]

/-- Pad a message (list of bytes) to a multiple of 64 bytes, appending the
bit 0x80, zeros, and the 64-bit big-endian bit length. -/
def pad (msg : List Nat) : List Nat :=
  let len := msg.length
  let bitLen := len * 8
  let zeros := (64 - ((len + 9) % 64)) % 64
  msg ++ [0x80] ++ List.replicate zeros 0 ++
    [(bitLen >>> 56) % 256, (bitLen >>> 48) % 256, (bitLen >>> 40) % 256,
     (bitLen >>> 32) % 256, (bitLen >>> 24) % 256, (bitLen >>> 16) % 256,
     (bitLen >>> 8) % 256, bitLen % 256]

/-- Big-endian 4-byte group to 32-bit words. -/
def toWords : List Nat → List Nat
  | b0 :: b1 :: b2 :: b3 :: rest =>
      (b0 <<< 24 ||| b1 <<< 16 ||| b2 <<< 8 ||| b3) :: toWords rest
  | _ => []

/-- One step of message-schedule extension: append word `w.length` computed
from the four taps. -/
def extendStep (w : List Nat) : List Nat :=
  let n := w.length
  let w15 := w.getD (n - 15) 0
  let w2 := w.getD (n - 2) 0
  let w16 := w.getD (n - 16) 0
  let w7 := w.getD (n - 7) 0
  let s0 := (rotr 7 w15) ^^^ (rotr 18 w15) ^^^ (shr 3 w15)
  let s1 := (rotr 17 w2) ^^^ (rotr 19 w2) ^^^ (shr 10 w2)
  w ++ [mask32 (w16 + s0 + w7 + s1)]

/-- Extend a 16-word block to the 64-word message schedule. -/
def schedule (block : List Nat) : List Nat :=
  Nat.rec block (fun _ acc => extendStep acc) 48

/-- One compression round over the 8-word state. -/
def round (state : List Nat) (kw : Nat × Nat) : List Nat :=
  match state with
  | [a, b, c, d, e, f, g, h] =>
      let s1 := (rotr 6 e) ^^^ (rotr 11 e) ^^^ (rotr 25 e)
      let ch := (e &&& f) ^^^ ((4294967295 - e) &&& g)
      let t1 := mask32 (h + s1 + ch + kw.1 + kw.2)
      let s0 := (rotr 2 a) ^^^ (rotr 13 a) ^^^ (rotr 22 a)
      let mj := (a &&& b) ^^^ (a &&& c) ^^^ (b &&& c)
      let t2 := mask32 (s0 + mj)
      [mask32 (t1 + t2), a, b, c, mask32 (d + t1), e, f, g]
  | s => s

/-- Compress one 64-byte block into the running state. -/
def compress (state block : List Nat) : List Nat :=
  let w := schedule (toWords block)
  let out := (K.zip w).foldl round state
  (state.zip out).map (fun p => mask32 (p.1 + p.2))

/-- Fold the compression over `n` 64-byte blocks (structural recursion so the
kernel can evaluate it). -/
def chunksN : Nat → List Nat → List Nat → List Nat
  | 0, state, _ => state
  | n + 1, state, bs => chunksN n (compress state (bs.take 64)) (bs.drop 64)

/-- Fold the compression over all 64-byte blocks. -/
def chunks (state bs : List Nat) : List Nat :=
  chunksN (bs.length / 64) state bs

/-- SHA-256 digest of a byte list, as 32 bytes. -/
def sha256 (msg : List Nat) : List Nat :=
  (chunks H0 (pad msg)).flatMap fun w =>
    [(w >>> 24) % 256, (w >>> 16) % 256, (w >>> 8) % 256, w % 256]

/-- Lower-case hex digit. -/
def hexDigit (n : Nat) : Char :=
  if n < 10 then Char.ofNat (48 + n) else Char.ofNat (87 + n)

/-- Lower-case two-digit hex of a byte. -/
def hexByte (n : Nat) : String :=
  String.mk [hexDigit (n / 16 % 16), hexDigit (n % 16)]

/-- UTF-8 encoding of one character, as bytes. -/
def utf8Char (c : Char) : List Nat :=
  let n := c.toNat
  if n < 0x80 then [n]
  else if n < 0x800 then [0xC0 ||| (n >>> 6), 0x80 ||| (n &&& 0x3F)]
  else if n < 0x10000 then
    [0xE0 ||| (n >>> 12), 0x80 ||| ((n >>> 6) &&& 0x3F), 0x80 ||| (n &&& 0x3F)]
  else
    [0xF0 ||| (n >>> 18), 0x80 ||| ((n >>> 12) &&& 0x3F),
     0x80 ||| ((n >>> 6) &&& 0x3F), 0x80 ||| (n &&& 0x3F)]

/-- UTF-8 bytes of a string (what Python's `str.encode()` produces). -/
def utf8 (s : String) : List Nat := s.data.flatMap utf8Char

/-- `hashlib.sha256(s.encode()).hexdigest()`. -/
def sha256Hex (s : String) : String :=
  String.join ((sha256 (utf8 s)).map hexByte)

end SHA256

/-! ## Python `json.dumps` (sort_keys=True, ensure_ascii=True, default
separators `", "` and `": "`), over an explicit JSON value type -/

/-- JSON values as Python's `json` module serializes them (numbers restricted
to integers; the audit payloads the claims touch carry strings, integers,
booleans, nulls, lists and dicts). -/
inductive PyJson where
  | null : PyJson
  | bool (b : Bool) : PyJson
  | num (n : Int) : PyJson
  | str (s : String) : PyJson
  | arr (xs : List PyJson) : PyJson
  | obj (kvs : List (String × PyJson)) : PyJson

namespace PyJson

/-- Four lower-case hex digits, as in Python's `\uXXXX` escapes. -/
def hex4 (n : Nat) : String :=
  String.mk [SHA256.hexDigit (n / 4096 % 16), SHA256.hexDigit (n / 256 % 16),
             SHA256.hexDigit (n / 16 % 16), SHA256.hexDigit (n % 16)]

/-- Escape one character the way `json.dumps` (ensure_ascii=True) does. -/
def escapeChar (c : Char) : String :=
  let n := c.toNat
  if c = '"' then "\\\""
  else if c = '\\' then "\\\\"
  else if c = '\n' then "\\n"
  else if c = '\t' then "\\t"
  else if c = '\r' then "\\r"
  else if n = 8 then "\\b"
  else if n = 12 then "\\f"
  else if n < 0x20 then "\\u" ++ hex4 n
  else if n ≤ 0x7e then String.singleton c
  else if n < 0x10000 then "\\u" ++ hex4 n
  else
    "\\u" ++ hex4 (0xD800 + ((n - 0x10000) >>> 10)) ++
    "\\u" ++ hex4 (0xDC00 + ((n - 0x10000) &&& 0x3FF))

/-- A JSON string literal: quotes around the escaped text. -/
def quote (s : String) : String :=
  "\"" ++ String.join (s.data.map escapeChar) ++ "\""

/-- Code-point lexicographic order on characters, as Python compares
strings. -/
def charsLt : List Char → List Char → Bool
  | [], [] => false
  | [], _ :: _ => true
  | _ :: _, [] => false
  | a :: as, b :: bs =>
      if a.toNat < b.toNat then true
      else if b.toNat < a.toNat then false
      else charsLt as bs

/-- `a < b` on strings, by code points (Python's string comparison). -/
def strLt (a b : String) : Bool := charsLt a.data b.data

/-- Insert a rendered key-value pair into a key-sorted list (Python's
`sort_keys=True` sorts by code-point order). -/
def insertSorted (p : String × String) :
    List (String × String) → List (String × String)
  | [] => [p]
  | q :: rest =>
      if strLt p.1 q.1 then p :: q :: rest else q :: insertSorted p rest

/-- Sort rendered key-value pairs by key. -/
def sortByKey (kvs : List (String × String)) : List (String × String) :=
  kvs.foldr insertSorted []

/-- Join strings with `", "` (json.dumps' default item separator). -/
def joinComma : List String → String
  | [] => ""
  | [x] => x
  | x :: xs => x ++ ", " ++ joinComma xs

mutual

/-- Size of a JSON value (dominates its nesting depth). -/
def size : PyJson → Nat
  | null | bool _ | num _ | str _ => 1
  | arr xs => 1 + sizeList xs
  | obj kvs => 1 + sizeKVs kvs

/-- Total size of array elements. -/
def sizeList : List PyJson → Nat
  | [] => 0
  | x :: xs => size x + sizeList xs

/-- Total size of object values. -/
def sizeKVs : List (String × PyJson) → Nat
  | [] => 0
  | (_, v) :: kvs => size v + sizeKVs kvs

end

/-- `json.dumps` worker, recursing on a structural depth bound so that the
kernel can evaluate it (the bound is always sufficient, see `dumps`). -/
def dumpsF : Nat → PyJson → String
  | 0, _ => ""
  | n + 1, j =>
    match j with
    | null => "null"
    | bool true => "true"
    | bool false => "false"
    | num k => toString k
    | str s => quote s
    | arr xs => "[" ++ joinComma (xs.map (dumpsF n)) ++ "]"
    | obj kvs =>
        "\x7b" ++ joinComma ((sortByKey (kvs.map
          (fun kv => (kv.1, dumpsF n kv.2)))).map
          (fun kv => quote kv.1 ++ ": " ++ kv.2)) ++ "\x7d"

/-- `json.dumps(v, sort_keys=True)`: each object's entries are rendered, then
sorted by key and joined as `"key": value`; `size` dominates the nesting
depth, so the fuel never runs out. -/
def dumps (j : PyJson) : String := dumpsF (size j) j

/-- An optional string as `json` renders it: `null` or the string. -/
def ofOptStr : Option String → PyJson
  | none => null
  | some s => str s

end PyJson

/-! ## Backend audit model (`src/backend/agentic/src/models/audit.py`)

`AuditEntry.calculate_hash`, `AuditLog.add_entry` and
`AuditLog.verify_integrity`.  A `datetime` field is modelled as the
`isoformat()` string the source serializes it to; an `AuditEventType` as its
`.value` string; the `event_details` dict as a JSON value. -/

namespace BackendAudit

/-- One audit log entry (`AuditEntry`). -/
structure AuditEntry where
  log_id : String
  request_id : Option String
  user_id : Option String
  project_id : Option String
  agent_id : Option String
  event_type : String
  event_details : PyJson
  context_snapshot : PyJson
  result : String
  error : Option String
  timestamp : String
  previous_hash : Option String
  entry_hash : Option String

/-- `AuditEntry.calculate_hash`: SHA-256 of the sorted-key JSON dump of the
dict `{log_id, request_id, event_type, timestamp, event_details (itself a
sorted-key dump), result, previous_hash or ""}` — note that `user_id`,
`project_id`, `agent_id`, `context_snapshot` and `error` are NOT part of the
hashed data. -/
def calculateHash (e : AuditEntry) : String :=
  SHA256.sha256Hex (PyJson.dumps (.obj [
    ("log_id", .str e.log_id),
    ("request_id", PyJson.ofOptStr e.request_id),
    ("event_type", .str e.event_type),
    ("timestamp", .str e.timestamp),
    ("event_details", .str (PyJson.dumps e.event_details)),
    ("result", .str e.result),
    ("previous_hash", .str (e.previous_hash.getD ""))]))

/-- `AuditLog.add_entry`: link the new entry to the last entry's
`entry_hash` (when the log is non-empty), stamp its `entry_hash` via
`calculate_hash`, and append. -/
def addEntry (entries : List AuditEntry) (e : AuditEntry) : List AuditEntry :=
  let e1 :=
    match entries.getLast? with
    | some last => { e with previous_hash := last.entry_hash }
    | none => e
  entries ++ [{ e1 with entry_hash := some (calculateHash e1) }]

/-- Worker for `AuditLog.verify_integrity`, carrying the previous entry's
`entry_hash`.  (The source's `calculate_hash` call overwrites
`entry.entry_hash` in place, but on every path on which the chain link of
the next entry is inspected the recomputed hash equals the stored one, so
the pure reading below has the same boolean result.) -/
def verifyFrom : Option (Option String) → List AuditEntry → Bool
  | _, [] => true
  | prevHash, e :: rest =>
      if e.entry_hash ≠ some (calculateHash e) then false
      else
        match prevHash with
        | none => verifyFrom (some e.entry_hash) rest
        | some ph =>
            if e.previous_hash ≠ ph then false
            else verifyFrom (some e.entry_hash) rest

/-- `AuditLog.verify_integrity`: every entry's stored hash matches the
recomputed one and every entry after the first links to its predecessor. -/
def verify_integrity (entries : List AuditEntry) : Bool :=
  verifyFrom none entries

/-- The fields of an entry that `calculate_hash` reads (together with the
stored `entry_hash` itself).  Mutations preserving this projection cannot be
seen by `verify_integrity`. -/
def hashedProjection (e : AuditEntry) :
    String × Option String × String × PyJson × String × String ×
      Option String × Option String :=
  (e.log_id, e.request_id, e.event_type, e.event_details, e.result,
   e.timestamp, e.previous_hash, e.entry_hash)

/-- The `entry_hash` that the next appended entry will link to: the last
entry's, or the inherited one when the list is empty. -/
def lastEntryHash (ph : Option (Option String)) (l : List AuditEntry) :
    Option (Option String) :=
  match l.getLast? with
  | some e => some e.entry_hash
  | none => ph

end BackendAudit

/-! ## Audit logger model (`src/agentic/src/audit_logging/audit_logger.py`)

The write path shared by every `log_*` method: build an `AuditEvent` whose
`previous_hash` is the logger's process-wide `_last_hash`, hash it
(`__post_init__` / `_calculate_hash`), append it to the day file
(`_write_event`, which advances `_last_hash`), and mirror it into the
in-memory trail for its request id (`log_request_received` creates the
trail when absent; the other methods only append when it exists). -/

namespace AuditLogging

/-- One audit event (`AuditEvent`); the `timestamp` is its `isoformat()`
string. -/
structure AuditEvent where
  log_id : String
  timestamp : String
  request_id : String
  user_id : String
  project_id : String
  agent_id : Option String
  event_type : String
  event_details : PyJson
  context_snapshot : PyJson
  result : String
  error : Option String
  previous_hash : Option String
  current_hash : Option String

/-- `AuditEvent._calculate_hash`: SHA-256 of the sorted-key JSON dump of all
twelve content fields (here, unlike the backend model, `event_details` and
`context_snapshot` are embedded as nested objects, and every field is
hashed). -/
def calculateEventHash (e : AuditEvent) : String :=
  SHA256.sha256Hex (PyJson.dumps (.obj [
    ("log_id", .str e.log_id),
    ("timestamp", .str e.timestamp),
    ("request_id", .str e.request_id),
    ("user_id", .str e.user_id),
    ("project_id", .str e.project_id),
    ("agent_id", PyJson.ofOptStr e.agent_id),
    ("event_type", .str e.event_type),
    ("event_details", e.event_details),
    ("context_snapshot", e.context_snapshot),
    ("result", .str e.result),
    ("error", PyJson.ofOptStr e.error),
    ("previous_hash", PyJson.ofOptStr e.previous_hash)]))

/-- The content of one `log_*` call, as chosen by the caller / environment
(`log_id` and `timestamp` stand for the generated uuid and `utcnow`).
`requestReceived` models `log_request_received`; `followUp` models the
common shape of `log_policy_check`, `log_budget_check`,
`log_risk_assessment`, `log_agent_decision`, `log_payment_reserved`,
`log_payment_completed`, `log_api_call` and `log_error`, which differ only
in the event type, details, result and error they fill in. -/
inductive AuditCall where
  | requestReceived (log_id timestamp request_id user_id project_id : String)
      (agent_id : Option String) (request_details : PyJson)
  | followUp (log_id timestamp request_id user_id project_id : String)
      (agent_id : Option String) (event_type : String)
      (event_details context_snapshot : PyJson)
      (result : String) (error : Option String)

/-- Logger state: the process-wide chain head `_last_hash`, the in-memory
trails `_trails` (request id ↦ its events, in arrival order), and the
events appended to the day file, in order. -/
structure LoggerState where
  lastHash : Option String
  trails : List (String × List AuditEvent)
  written : List AuditEvent

/-- The fresh logger (`_last_hash = None`, no trails, empty file). -/
def initialState : LoggerState := ⟨none, [], []⟩

/-- Look a trail up by request id. -/
def findTrail (trails : List (String × List AuditEvent)) (rid : String) :
    Option (List AuditEvent) :=
  match trails with
  | [] => none
  | (k, t) :: rest => if k = rid then some t else findTrail rest rid

/-- Append an event to the trail of its request id (no-op when absent,
matching `if request_id in self._trails`). -/
def trailAppend (trails : List (String × List AuditEvent)) (rid : String)
    (e : AuditEvent) : List (String × List AuditEvent) :=
  match trails with
  | [] => []
  | (k, t) :: rest =>
      if k = rid then (k, t ++ [e]) :: rest
      else (k, t) :: trailAppend rest rid e

/-- Create an empty trail for a request id when none exists
(`log_request_received`'s initialization). -/
def trailInit (trails : List (String × List AuditEvent)) (rid : String) :
    List (String × List AuditEvent) :=
  match findTrail trails rid with
  | some _ => trails
  | none => trails ++ [(rid, [])]

/-- One `log_*` call: build the event with `previous_hash := _last_hash`,
stamp `current_hash` (`__post_init__`), `_write_event` it (append to the
file, advance `_last_hash`), and mirror it into the trails. -/
def step (st : LoggerState) : AuditCall → LoggerState
  | .requestReceived lid ts rid uid pid aid details =>
      let e0 : AuditEvent :=
        { log_id := lid, timestamp := ts, request_id := rid, user_id := uid,
          project_id := pid, agent_id := aid,
          event_type := "request_received", event_details := details,
          context_snapshot := .obj [("action", .str "request_received")],
          result := "success", error := none,
          previous_hash := st.lastHash, current_hash := none }
      let e := { e0 with current_hash := some (calculateEventHash e0) }
      { lastHash := e.current_hash,
        written := st.written ++ [e],
        trails := trailAppend (trailInit st.trails rid) rid e }
  | .followUp lid ts rid uid pid aid etype details ctx res err =>
      let e0 : AuditEvent :=
        { log_id := lid, timestamp := ts, request_id := rid, user_id := uid,
          project_id := pid, agent_id := aid,
          event_type := etype, event_details := details,
          context_snapshot := ctx, result := res, error := err,
          previous_hash := st.lastHash, current_hash := none }
      let e := { e0 with current_hash := some (calculateEventHash e0) }
      { lastHash := e.current_hash,
        written := st.written ++ [e],
        trails := trailAppend st.trails rid e }

/-- Run a sequence of audit-logging calls from the fresh logger. -/
def run (calls : List AuditCall) : LoggerState :=
  calls.foldl step initialState

/-- The chain condition on a list of events, starting from a given head:
each event's `previous_hash` is the hash that preceded it. -/
def chainFrom : Option String → List AuditEvent → Bool
  | _, [] => true
  | ph, e :: rest =>
      if e.previous_hash = ph then chainFrom e.current_hash rest else false

/-- The chain head after a list of events: the last event's
`current_hash`, or the inherited head when the list is empty. -/
def tailHash (ph : Option String) (l : List AuditEvent) : Option String :=
  match l.getLast? with
  | some e => e.current_hash
  | none => ph

end AuditLogging

/-! ## User policy and requests

`UserPolicy` (`src/agentic/src/models/user.py`, the fields the claims
touch) and the request object exactly as the decision engine reads it: the
engine accesses `request_id`, `user_id`, `project_id`, `api_provider`,
`model_name`, `endpoint`, `estimated_tokens`, `estimated_cost` and
`agent_id` (`main.py` builds requests with these fields; the spec's
"operation" is the engine's `endpoint`).  Currency amounts and scores are
rationals. -/

/-- A single quote character (Python renders str lists with them). -/
def squo : String := String.singleton (Char.ofNat 39)

/-- Python `repr` of a list of strings, e.g. `['openai', 'google']`
(assuming the strings themselves need no escaping), as interpolated into
the engine's f-string reasons. -/
def pyStrList (xs : List String) : String :=
  "[" ++ PyJson.joinComma (xs.map (fun s => squo ++ s ++ squo)) ++ "]"

/-- Per-user policy (the fields read by the allow-list checks and the
user-layer compliance checks). -/
structure UserPolicy where
  allowed_providers : List String
  allowed_models : List (String × List String)
  forbidden_providers : List String
  forbidden_operations : List String
  per_request_limit : Rat
  daily_budget : Rat
  is_active : Bool

/-- `dict.get(provider, [])` over the `allowed_models` map. -/
def UserPolicy.modelsFor (p : UserPolicy) (provider : String) :
    Option (List String) :=
  match p.allowed_models.find? (fun kv => kv.1 = provider) with
  | some kv => some kv.2
  | none => none

/-- The API request as the decision engine consumes it. -/
structure APIRequest where
  request_id : String
  user_id : String
  project_id : String
  agent_id : Option String
  api_provider : String
  model_name : String
  endpoint : String
  estimated_tokens : Option Int
  estimated_cost : Rat

/-! ## Decision engine
(`src/agentic/src/decision_engine/decision_engine.py`) -/

namespace DecisionEngine

/-- `ValidationResult`. -/
structure ValidationResult where
  valid : Bool
  error : Option String

/-- `ProviderModelValidation`. -/
structure ProviderModelValidation where
  valid : Bool
  reason : Option String
  rejection_type : Option String

/-- `_validate_request_structure`: every required field truthy (non-empty),
and a truthy `estimated_tokens` neither negative nor above one million. -/
def validateRequestStructure (r : APIRequest) : ValidationResult :=
  if r.request_id = "" then
    ⟨false, some "Missing required field: request_id"⟩
  else if r.user_id = "" then
    ⟨false, some "Missing required field: user_id"⟩
  else if r.project_id = "" then
    ⟨false, some "Missing required field: project_id"⟩
  else if r.api_provider = "" then
    ⟨false, some "Missing required field: api_provider"⟩
  else if r.model_name = "" then
    ⟨false, some "Missing required field: model_name"⟩
  else if r.endpoint = "" then
    ⟨false, some "Missing required field: endpoint"⟩
  else
    match r.estimated_tokens with
    | none => ⟨true, none⟩
    | some t =>
        if t ≠ 0 ∧ t < 0 then
          ⟨false, some "Invalid token estimate: must be positive"⟩
        else if t ≠ 0 ∧ t > 1000000 then
          ⟨false, some "Invalid token estimate: exceeds maximum (1M tokens)"⟩
        else ⟨true, none⟩

/-- `_validate_provider_model`: the engine's own allow-list check; a
missing policy contributes an empty provider list. -/
def validateProviderModel (r : APIRequest) (user_policy : Option UserPolicy) :
    ProviderModelValidation :=
  let allowed_providers :=
    match user_policy with
    | some p => p.allowed_providers
    | none => []
  if allowed_providers = [] then
    ⟨false, some "No providers configured for this project",
      some "NO_PROVIDERS_CONFIGURED"⟩
  else if r.api_provider ∉ allowed_providers then
    ⟨false, some ("Provider " ++ squo ++ r.api_provider ++ squo ++
        " not in allowed list: " ++ pyStrList allowed_providers),
      some "UNAUTHORIZED_PROVIDER"⟩
  else
    let allowed_models :=
      match user_policy with
      | some p => (p.modelsFor r.api_provider).getD []
      | none => []
    if allowed_models = [] then
      ⟨false, some ("No models configured for provider " ++ squo ++
          r.api_provider ++ squo),
        some "NO_MODELS_CONFIGURED"⟩
    else if r.model_name ∉ allowed_models then
      ⟨false, some ("Model " ++ squo ++ r.model_name ++ squo ++
          " not in allowed list for " ++ squo ++ r.api_provider ++ squo ++
          ": " ++ pyStrList allowed_models),
        some "UNAUTHORIZED_MODEL"⟩
    else ⟨true, none, none⟩

/-- `DecisionOutcome`. -/
inductive DecisionOutcome where
  | APPROVED | REJECTED | ESCALATED | ERROR
  deriving DecidableEq

/-- The decision object the engine returns (the fields its constructor
calls pass). -/
structure Decision where
  request_id : String
  outcome : DecisionOutcome
  rejection_reason : Option String := none
  reasoning : String
  confidence : Rat
  agent_tier : String
  agent_id : Option String := none
  risk_score : Option Rat := none

/-- Format a rational with two decimals, best effort, for the engine's
`$:.2f` strings (no claim inspects these strings). -/
def fmt2 (q : Rat) : String :=
  let cents : Int := (q * 100 + 1/2).floor
  let sign := if cents < 0 then "-" else ""
  let n := cents.natAbs
  sign ++ toString (n / 100) ++ "." ++
    (if n % 100 < 10 then "0" else "") ++ toString (n % 100)

/-- The results of the engine's external consultations, supplied as the
environment of one `process_request` run: the policy loaded in step 3, the
pricing estimate of step 5, the budget check of step 6, the compliance
result of step 7, the risk score of step 8, and the tier evaluator of step
10 (a function of the chosen tier).  Context and policy loading are assumed
to succeed (their failure path is the engine's generic ERROR handler). -/
structure PipelineEnv where
  user_policy : Option UserPolicy
  cost_estimate : Rat
  budget_sufficient : Bool
  budget_available : Rat
  policy_compliant : Bool
  policy_violations : List String
  risk_score : Rat
  evaluate : String → Decision

/-- `process_request`: the pipeline in source order — structural
validation, allow-list check, budget check, policy compliance, then tier
routing and the evaluator's decision (each early return builds the same
REJECTED decision the source does). -/
def processRequest (env : PipelineEnv) (r : APIRequest) : Decision :=
  let validation := validateRequestStructure r
  if validation.valid = false then
    { request_id := r.request_id, outcome := .REJECTED,
      rejection_reason :=
        some ("Invalid request: " ++ validation.error.getD ""),
      reasoning := "Request validation failed", confidence := 1,
      agent_tier := "SYSTEM" }
  else
    let pm := validateProviderModel r env.user_policy
    if pm.valid = false then
      { request_id := r.request_id, outcome := .REJECTED,
        rejection_reason := pm.reason,
        reasoning := "Provider or model not in user's whitelist",
        confidence := 1, agent_tier := "SYSTEM" }
    else if env.budget_sufficient = false then
      { request_id := r.request_id, outcome := .REJECTED,
        rejection_reason := some ("Insufficient budget: $" ++
          fmt2 env.budget_available ++ " available, $" ++
          fmt2 env.cost_estimate ++ " required"),
        reasoning := "Budget check failed", confidence := 1,
        agent_tier := "SYSTEM" }
    else if env.policy_compliant = false then
      { request_id := r.request_id, outcome := .REJECTED,
        rejection_reason := some ("Policy violation: " ++
          env.policy_violations.headD ""),
        reasoning := "Policy compliance check failed", confidence := 1,
        agent_tier := "SYSTEM" }
    else
      let tier :=
        if env.cost_estimate < 1 ∧ env.risk_score < 5 then "FLASH" else "PRO"
      let d := env.evaluate tier
      { d with agent_tier := tier, risk_score := some env.risk_score }

end DecisionEngine

/-! ## Policy manager (`src/agentic/src/policies/policy_manager.py`; the
backend copy `src/backend/agentic/src/policies/policy_manager.py` has the
same `_validate_provider` / `_validate_model` bodies) -/

namespace PolicyManager

/-- `PolicyViolation`. -/
structure PolicyViolation where
  policy_name : String
  violation_type : String
  details : String
  severity : String
  deriving DecidableEq

/-- `ComplianceResult` (mutable accumulator of the compliance check). -/
structure ComplianceResult where
  compliant : Bool := true
  violations : List PolicyViolation := []
  warnings : List String := []
  policies_checked : List String := []
  deriving DecidableEq

/-- `ComplianceResult.add_violation`. -/
def addViolation (r : ComplianceResult) (policy_name violation_type details
    severity : String) : ComplianceResult :=
  { r with
    violations := r.violations ++ [⟨policy_name, violation_type, details,
      severity⟩],
    compliant := false }

/-- `ComplianceResult.add_warning`. -/
def addWarning (r : ComplianceResult) (message : String) : ComplianceResult :=
  { r with warnings := r.warnings ++ [message] }

/-- `PolicyManager._validate_provider`: deny-listed providers are rejected;
an EMPTY `allowed_providers` allows with a warning ("no restrictions set");
otherwise membership is required. -/
def validateProvider (provider : String) (policy : UserPolicy)
    (result : ComplianceResult) : Bool × ComplianceResult :=
  let result := { result with
    policies_checked := result.policies_checked ++ ["provider_whitelist"] }
  if provider ∈ policy.forbidden_providers then
    (false, addViolation result "provider_whitelist" "forbidden_provider"
      ("Provider " ++ squo ++ provider ++ squo ++ " is explicitly forbidden")
      "critical")
  else if policy.allowed_providers = [] then
    (true, addWarning result "No providers configured in policy")
  else if provider ∉ policy.allowed_providers then
    (false, addViolation result "provider_whitelist" "unauthorized_provider"
      ("Provider " ++ squo ++ provider ++ squo ++
        " not in allowed list. Allowed: " ++
        pyStrList policy.allowed_providers)
      "critical")
  else (true, result)

/-- `PolicyManager._validate_model`: a missing `allowed_models` entry for
the provider allows with a warning ("no restrictions set"); a present entry
requires membership (so a present-but-empty entry rejects). -/
def validateModel (model provider : String) (policy : UserPolicy)
    (result : ComplianceResult) : Bool × ComplianceResult :=
  let result := { result with
    policies_checked := result.policies_checked ++ ["model_whitelist"] }
  match policy.modelsFor provider with
  | none =>
      (true, addWarning result ("No model restrictions for provider " ++
        squo ++ provider ++ squo))
  | some allowed_models_for_provider =>
      if model ∉ allowed_models_for_provider then
        (false, addViolation result "model_whitelist" "unauthorized_model"
          ("Model " ++ squo ++ model ++ squo ++ " not allowed for provider "
            ++ squo ++ provider ++ squo ++ ". Allowed: " ++
            pyStrList allowed_models_for_provider)
          "critical")
      else (true, result)

/-- The allow-list portion of `check_compliance` (its steps 1 and 2, with
their early exits): the provider whitelist check, then the model whitelist
check. -/
def allowListCheck (provider model : String) (policy : UserPolicy) :
    Bool × ComplianceResult :=
  let (ok1, r1) := validateProvider provider policy {}
  if ok1 = false then (false, r1)
  else
    let (ok2, r2) := validateModel model provider policy r1
    if ok2 = false then (false, r2) else (true, r2)

end PolicyManager

/-! ## Risk detector (`src/agentic/src/risk/risk_detector.py`) -/

namespace Risk

/-- The baseline fields `_check_cost_anomaly` reads
(`models/risk.py: UserBaseline`). -/
structure UserBaseline where
  average_request_cost : Rat

/-- `RiskFactor` (the `details` dict is omitted; no claim reads it). -/
structure RiskFactor where
  factor_type : String
  description : String
  risk_contribution : Rat
  severity : String
  deriving DecidableEq

/-- Format a rational with one decimal, best effort, for the detector's
`:.1f` descriptions (no claim inspects these strings). -/
def fmt1 (q : Rat) : String :=
  let tenths : Int := (q * 10 + 1/2).floor
  let sign := if tenths < 0 then "-" else ""
  let n := tenths.natAbs
  sign ++ toString (n / 10) ++ "." ++ toString (n % 10)

/-- `RiskDetector._check_cost_anomaly` (the unused `user_context` parameter
is dropped): without a baseline, or with a zero baseline average, only the
absolute `cost > 10` check fires; with one, the relative deviation
`(cost - avg) / avg` is compared against 3 and 2. -/
def checkCostAnomaly (request : APIRequest)
    (baseline : Option UserBaseline) : Option RiskFactor :=
  match baseline with
  | none =>
      if request.estimated_cost > 10 then
        some ⟨"high_cost", "High cost request without baseline", 2, "medium"⟩
      else none
  | some b =>
      if b.average_request_cost = 0 then
        if request.estimated_cost > 10 then
          some ⟨"high_cost", "High cost request without baseline", 2,
            "medium"⟩
        else none
      else
        let deviation :=
          (request.estimated_cost - b.average_request_cost) /
            b.average_request_cost
        if deviation > 3 then
          some ⟨"cost_spike",
            "Cost is " ++ fmt1 deviation ++ "x higher than user average",
            min 3 deviation, "high"⟩
        else if deviation > 2 then
          some ⟨"cost_spike",
            "Cost is " ++ fmt1 deviation ++ "x higher than user average",
            (3 : Rat) / 2, "medium"⟩
        else none

/-- `RiskAssessmentResult.__post_init__`'s derivation of `risk_level` from
`risk_score` (thresholds 2, 4, 6, 8). -/
def riskLevelOf (score : Rat) : String :=
  if score ≤ 2 then "very_low"
  else if score ≤ 4 then "low"
  else if score ≤ 6 then "medium"
  else if score ≤ 8 then "high"
  else "critical"

/-- A Python exception, as a value. -/
inductive PyError where
  | typeError (message : String)
  | attributeError (message : String)
  deriving DecidableEq

/-- The result dataclass `RiskAssessmentResult` (fields as declared;
`risk_score` and `risk_level` have NO defaults in the source). -/
structure RiskAssessmentResult where
  request_id : String
  user_id : String
  project_id : String
  risk_score : Rat
  risk_level : String
  risk_factors : List RiskFactor
  recommended_action : String
  confidence : Rat
  baseline_used : Bool

/-- `RiskDetector.assess_risk`: its very first statement constructs
`RiskAssessmentResult(request_id=…, user_id=…, project_id=…)`, passing
neither `risk_score` nor `risk_level`, which are required dataclass fields
without defaults — so the call raises `TypeError` before any factor is
computed, and no assessment is ever returned. -/
def assessRisk (_request : APIRequest) :
    Except PyError RiskAssessmentResult :=
  Except.error (.typeError
    ("__init__() missing 2 required positional arguments: " ++ squo ++
      "risk_score" ++ squo ++ " and " ++ squo ++ "risk_level" ++ squo))

end Risk

/-! ## Budget tracker (`src/agentic/src/budgets/budget_tracker.py` and
`src/agentic/src/models/budget.py`) -/

namespace Budget

/-- `models/budget.py: BudgetPolicy` — its limit fields are
`per_request_max`, `daily_limit` and `monthly_limit` (there is no
`per_request_limit` attribute). -/
structure BudgetPolicy where
  user_id : String
  project_id : String
  per_request_max : Rat
  daily_limit : Rat
  monthly_limit : Rat

/-- The status fields `check_against_policy` reads
(`budget_tracker.py: BudgetStatus`). -/
structure BudgetStatusRec where
  available_balance : Rat
  spent_today : Rat
  spent_this_month : Rat

/-- Attribute access on a `BudgetPolicy`, as Python resolves it: the three
limit attributes that exist, and `AttributeError` for anything else — in
particular for `per_request_limit`, which `check_against_policy` asks
for. -/
def policyAttr (p : BudgetPolicy) (name : String) : Except Risk.PyError Rat :=
  if name = "per_request_max" then .ok p.per_request_max
  else if name = "daily_limit" then .ok p.daily_limit
  else if name = "monthly_limit" then .ok p.monthly_limit
  else .error (.attributeError (squo ++ "BudgetPolicy" ++ squo ++
    " object has no attribute " ++ squo ++ name ++ squo))

/-- Constructing `models/budget.py: BudgetCheck` (imported as
`BudgetCheckModel`) with the keyword arguments `check_against_policy`
passes: `current_balance`, `estimated_cost`, `remaining_budget` and
`violations` are not fields of that dataclass, so the call raises
`TypeError`. -/
def mkBudgetCheckModelWithPolicyKwargs : Except Risk.PyError Unit :=
  .error (.typeError ("__init__() got an unexpected keyword argument " ++
    squo ++ "current_balance" ++ squo))

/-- `BudgetTracker.check_against_policy`: the body accumulates violations
(balance first), then reads `policy.per_request_limit` — an
`AttributeError`, since `BudgetPolicy` only has `per_request_max` — which
the `except` handler catches; the handler then itself constructs
`BudgetCheckModel` with keyword arguments the dataclass does not accept,
so a `TypeError` escapes the call: the function never returns a
permit/deny result. -/
def checkAgainstPolicy (status : BudgetStatusRec) (policy : BudgetPolicy)
    (requested_amount : Rat) : Except Risk.PyError Unit :=
  let body : Except Risk.PyError Unit := do
    let _violations :=
      if requested_amount > status.available_balance then
        ["Insufficient balance: need $" ++ DecisionEngine.fmt2
          requested_amount ++ ", have $" ++ DecisionEngine.fmt2
          status.available_balance]
      else []
    let _prl ← policyAttr policy "per_request_limit"
    pure ()
  match body with
  | .ok r => .ok r
  | .error _ => mkBudgetCheckModelWithPolicyKwargs

/-- Truthiness of an optional string argument (`if user_id and ...`):
`None` and the empty string are falsy. -/
def truthy : Option String → Bool
  | none => false
  | some s => s ≠ ""

/-- Code-point prefix test (`str.startswith`). -/
def charsPrefix : List Char → List Char → Bool
  | [], _ => true
  | _ :: _, [] => false
  | a :: pre, b :: rest => if a = b then charsPrefix pre rest else false

/-- `key.startswith(prefix)`. -/
def startsWith (s pre : String) : Bool := charsPrefix pre.data s.data

/-- Cache lookup by key (`self._cache[key]`; dict keys are unique). -/
def cacheGet {V : Type} : List (String × V) → String → Option V
  | [], _ => none
  | (k, v) :: rest, key => if k = key then some v else cacheGet rest key

/-- `BudgetTracker.clear_cache`: with truthy `user_id` and `project_id`,
pop the single key `f"{user_id}:{project_id}"`; with only a truthy
`user_id`, drop every key starting with `f"{user_id}:"`; otherwise clear
the whole cache. -/
def clearCache {V : Type} (cache : List (String × V))
    (user_id project_id : Option String) : List (String × V) :=
  if truthy user_id ∧ truthy project_id then
    cache.filter (fun kv =>
      kv.1 ≠ user_id.getD "" ++ ":" ++ project_id.getD "")
  else if truthy user_id then
    cache.filter (fun kv => startsWith kv.1 (user_id.getD "" ++ ":") = false)
  else []

end Budget

/-! ## Payment executor (`src/agentic/src/payments/payment_executor.py`) -/

namespace Payments

/-- `PaymentStatus`. -/
inductive PaymentStatus where
  | pending | reserved | committed | failed | refunded | cancelled
  deriving DecidableEq

/-- `PaymentReservation`. -/
structure PaymentReservation where
  reservation_id : String
  request_id : String
  user_id : String
  project_id : String
  estimated_amount : Rat
  currency : String := "USDC"
  status : PaymentStatus := .reserved
  tx_hash : Option String := none
  block_number : Option Int := none

/-- `PaymentResult`. -/
structure PaymentResult where
  payment_id : String
  request_id : String
  reservation_id : String
  estimated_amount : Rat
  actual_amount : Rat
  variance_amount : Rat
  variance_percent : Rat
  currency : String := "USDC"
  status : PaymentStatus := .committed
  provider : String := ""
  payment_tx_hash : Option String := none
  block_number : Option Int := none
  error : Option String := none

/-- The backend's response to the reserve call (the blockchain write). -/
structure ReserveResponse where
  reservation_id : String
  tx_hash : Option String
  block_number : Option Int

/-- `PaymentExecutor.reserve_payment`, on a successful backend response:
the reservation carries the backend's `reservation_id`, `tx_hash` and
`block_number`, status RESERVED. -/
def reservePayment (resp : ReserveResponse)
    (request_id user_id project_id : String) (estimated_amount : Rat) :
    PaymentReservation :=
  { reservation_id := resp.reservation_id, request_id, user_id, project_id,
    estimated_amount, status := .reserved, tx_hash := resp.tx_hash,
    block_number := resp.block_number }

/-- `PaymentExecutor.commit_payment`, on a successful backend response
(`payment_id` is the id the backend returns): variance is
`estimated - actual`; the percentage divides by `estimated` when positive
and is 0 otherwise; the result is COMMITTED and reuses the reservation's
transaction hash ("Same TX from reserve"). -/
def commitPayment (reservation : PaymentReservation) (actual_amount : Rat)
    (provider : String) (payment_id : String) : PaymentResult :=
  let variance_amount := reservation.estimated_amount - actual_amount
  let variance_percent :=
    if reservation.estimated_amount > 0 then
      variance_amount / reservation.estimated_amount * 100
    else 0
  { payment_id, request_id := reservation.request_id,
    reservation_id := reservation.reservation_id,
    estimated_amount := reservation.estimated_amount, actual_amount,
    variance_amount, variance_percent, currency := "USDC",
    status := .committed, provider,
    payment_tx_hash := reservation.tx_hash,
    block_number := reservation.block_number }

end Payments

end SmartSpace

/-- SHA-256 sanity check: the digest of the empty message matches the
published test vector. -/
theorem sha256_empty_vector :
    SmartSpace.SHA256.sha256Hex "" =
      "e3b0c44298fc1c149afbf4c8996fb92427ae41e4649b934ca495991b7852b855" := by
  decide

/-- SHA-256 sanity check: the digest of "abc" matches the published test
vector. -/
theorem sha256_abc_vector :
    SmartSpace.SHA256.sha256Hex "abc" =
      "ba7816bf8f01cfea414140de5dae2223b00361a396177a9cb410ff61f20015ad" := by
  decide

open SmartSpace

/-- C9: for every settlement of a reservation produced by `reserve_payment`,
the payment result has `variance_amount = estimated - actual`,
`variance_percent = variance / estimated * 100` when `estimated > 0` and `0`
otherwise, status COMMITTED, and a transaction hash equal, unchanged, to the
reservation's `tx_hash` from the reserve step (itself the backend's). -/
theorem C9_settlement_variance_and_txref
    (resp : Payments.ReserveResponse) (rid uid pid : String)
    (est actual : Rat) (provider payment_id : String) :
    (Payments.commitPayment
        (Payments.reservePayment resp rid uid pid est)
        actual provider payment_id).variance_amount = est - actual ∧
    (Payments.commitPayment
        (Payments.reservePayment resp rid uid pid est)
        actual provider payment_id).variance_percent =
      (if est > 0 then (est - actual) / est * 100 else 0) ∧
    (Payments.commitPayment
        (Payments.reservePayment resp rid uid pid est)
        actual provider payment_id).status = .committed ∧
    (Payments.commitPayment
        (Payments.reservePayment resp rid uid pid est)
        actual provider payment_id).payment_tx_hash =
      (Payments.reservePayment resp rid uid pid est).tx_hash ∧
    (Payments.reservePayment resp rid uid pid est).tx_hash = resp.tx_hash :=
  ⟨rfl, rfl, rfl, rfl, rfl⟩

/-- C5 (code bug): `RiskDetector.assess_risk` never returns an assessment
at all — its first statement constructs `RiskAssessmentResult` without the
required `risk_score` and `risk_level` dataclass fields, raising
`TypeError`; in particular no returned `risk_level` can be compared with a
final `risk_score` (and the final `result.risk_score = min(score, 10.0)`
assignment would not re-run `__post_init__`'s derivation anyway). -/
theorem C5_assess_risk_raises (r : APIRequest) :
    Risk.assessRisk r =
      Except.error (.typeError
        ("__init__() missing 2 required positional arguments: " ++ squo ++
          "risk_score" ++ squo ++ " and " ++ squo ++ "risk_level" ++ squo)) :=
  rfl

/-- C8 (code bug): `BudgetTracker.check_against_policy` never returns a
permit/deny result on any input: the body's read of
`policy.per_request_limit` raises `AttributeError` (the `BudgetPolicy`
dataclass only has `per_request_max`), and the fail-closed `except` handler
then itself raises `TypeError`, because it constructs
`models/budget.py: BudgetCheck` with keyword arguments
(`current_balance`, …) that dataclass does not accept. -/
theorem C8_check_against_policy_raises (status : Budget.BudgetStatusRec)
    (policy : Budget.BudgetPolicy) (amount : Rat) :
    Budget.checkAgainstPolicy status policy amount =
      Except.error (.typeError
        ("__init__() got an unexpected keyword argument " ++ squo ++
          "current_balance" ++ squo)) :=
  rfl

/-- Looking up a key in a cache filtered by a key predicate. -/
theorem cacheGet_filterKey {V : Type} (P : String → Bool)
    (cache : List (String × V)) (k : String) :
    Budget.cacheGet (cache.filter (fun kv => P kv.1)) k =
      (if P k then Budget.cacheGet cache k else none) := by
  induction cache with
  | nil => by_cases h : P k <;> simp [Budget.cacheGet, h]
  | cons kv rest ih =>
      obtain ⟨k1, v1⟩ := kv
      by_cases hk : k1 = k
      · subst hk
        by_cases hp : P k1 <;> simp [List.filter, Budget.cacheGet, hp, ih]
      · by_cases hp : P k1 <;> simp [List.filter, Budget.cacheGet, hp, hk, ih]

/-- C10 counterexample: the cache key is the string `user + ":" + project`,
which is not injective in the pair — with the single cached entry for the
pair `("a:b", "c")` (key `"a:b:c"`), clearing the DIFFERENT pair
`("a", "b:c")` removes it, so `clear_cache` with both arguments does not
leave every other pair's cached status unchanged. -/
theorem C10_counterexample :
    ("a:b", "c") ≠ ("a", "b:c") ∧
    Budget.cacheGet [("a:b" ++ ":" ++ "c", (1 : Rat))] ("a:b" ++ ":" ++ "c")
      = some 1 ∧
    Budget.cacheGet
      (Budget.clearCache [("a:b" ++ ":" ++ "c", (1 : Rat))]
        (some "a") (some "b:c"))
      ("a:b" ++ ":" ++ "c") = none := by
  refine ⟨by decide, rfl, by decide⟩

/-- C10 as amended: at the level of cache keys the claim holds for truthy
(non-empty) arguments — with both a principal and a project exactly the key
`principal:project` is dropped and every other key is untouched; with only
a principal exactly the keys with prefix `principal:` are dropped; with no
arguments the cache is emptied.  (Distinct pairs can alias one key when an
id contains a colon, and an empty-string id makes its argument falsy.) -/
theorem C10_clear_cache_amended {V : Type} (cache : List (String × V))
    (u p k : String) (q : Option String) (hu : u ≠ "") (hp : p ≠ "") :
    Budget.cacheGet (Budget.clearCache cache (some u) (some p)) k =
      (if k = u ++ ":" ++ p then none else Budget.cacheGet cache k) ∧
    Budget.cacheGet (Budget.clearCache cache (some u) none) k =
      (if Budget.startsWith k (u ++ ":") then none
       else Budget.cacheGet cache k) ∧
    Budget.clearCache cache none q = [] := by
  refine ⟨?_, ?_, by simp [Budget.clearCache, Budget.truthy]⟩
  · have h := cacheGet_filterKey
      (fun x => decide (x ≠ u ++ ":" ++ p)) cache k
    simp only [Budget.clearCache, Budget.truthy]
    rw [if_pos (by simp [hu, hp])]
    simp only [Option.getD_some]
    rw [h]
    by_cases hk : k = u ++ ":" ++ p <;> simp [hk]
  · have h := cacheGet_filterKey
      (fun x => decide (Budget.startsWith x (u ++ ":") = false)) cache k
    simp only [Budget.clearCache, Budget.truthy]
    rw [if_neg (by simp), if_pos (by simp [hu])]
    simp only [Option.getD_some]
    rw [h]
    by_cases hk : Budget.startsWith k (u ++ ":") <;> simp [hk]

/-- C10 witness: the amended theorem applied to a two-entry cache. -/
theorem C10_clear_cache_amended_witness :
    ("alice" : String) ≠ "" ∧ ("p1" : String) ≠ "" ∧
    (Budget.cacheGet
        (Budget.clearCache [("alice:p1", (1 : Rat)), ("bob:p2", 2)]
          (some "alice") (some "p1")) "bob:p2" =
      (if ("bob:p2" : String) = "alice" ++ ":" ++ "p1" then none
       else Budget.cacheGet [("alice:p1", (1 : Rat)), ("bob:p2", 2)]
        "bob:p2")) :=
  ⟨by decide, by decide,
    (C10_clear_cache_amended [("alice:p1", (1 : Rat)), ("bob:p2", 2)]
      "alice" "p1" "bob:p2" none (by decide) (by decide)).1⟩

/-- C6 counterexample: with baseline average 1 and estimated cost 3.5 — more
than 3x the average — the detector adds the MILD factor with contribution
1.5, not a factor with contribution `min(3.0, deviation)` (= 2.5 here),
because its branch tests the relative deviation `(cost - avg) / avg`
(here 2.5) against 3, not the cost against `3 * avg`. -/
theorem C6_counterexample :
    (Risk.checkCostAnomaly
        { request_id := "r1", user_id := "u", project_id := "p",
          agent_id := none, api_provider := "openai",
          model_name := "gpt-4", endpoint := "/chat",
          estimated_tokens := none, estimated_cost := 7/2 }
        (some { average_request_cost := 1 })).map
      (fun f => (f.factor_type, f.risk_contribution)) =
      some ("cost_spike", 3/2) ∧
    ((7 : Rat)/2 > 3 * 1) ∧
    ((3 : Rat)/2 ≠ min 3 (((7 : Rat)/2 - 1) / 1)) := by
  refine ⟨?_, by norm_num, by norm_num [min_def]⟩
  simp only [Risk.checkCostAnomaly]
  rw [if_neg (by norm_num), if_neg (by norm_num), if_pos (by norm_num)]
  rfl

/-- C6 as amended: with a positive baseline average, the detector adds a
`cost_spike` factor with contribution `min(3.0, deviation)` exactly when the
estimated cost exceeds FOUR times the baseline average (relative deviation
above 3), and the mild factor with contribution 1.5 exactly when it exceeds
three times but not four times the average (deviation in (2, 3]). -/
theorem C6_cost_spike_thresholds (req : APIRequest) (b : Risk.UserBaseline)
    (hpos : 0 < b.average_request_cost) :
    ((Risk.checkCostAnomaly req (some b)).map
        (fun f => (f.factor_type, f.risk_contribution)) =
      some ("cost_spike",
        min 3 ((req.estimated_cost - b.average_request_cost) /
          b.average_request_cost)) ↔
      req.estimated_cost > 4 * b.average_request_cost) ∧
    ((Risk.checkCostAnomaly req (some b)).map
        (fun f => (f.factor_type, f.risk_contribution)) =
      some ("cost_spike", 3/2) ↔
      (req.estimated_cost > 3 * b.average_request_cost ∧
        ¬ req.estimated_cost > 4 * b.average_request_cost)) := by
  set avg := b.average_request_cost with havg
  set cost := req.estimated_cost with hcost
  have hne : ¬ avg = 0 := ne_of_gt hpos
  have h3 : ((cost - avg) / avg > 3) ↔ cost > 4 * avg := by
    rw [gt_iff_lt, lt_div_iff₀ hpos]
    constructor <;> intro h <;> [linarith; linarith]
  have h2 : ((cost - avg) / avg > 2) ↔ cost > 3 * avg := by
    rw [gt_iff_lt, lt_div_iff₀ hpos]
    constructor <;> intro h <;> [linarith; linarith]
  simp only [Risk.checkCostAnomaly, ← havg, ← hcost]
  rw [if_neg hne]
  by_cases hc3 : (cost - avg) / avg > 3
  · rw [if_pos hc3]
    constructor
    · exact iff_of_true rfl (h3.mp hc3)
    · refine iff_of_false ?_ (fun hcon => hcon.2 (h3.mp hc3))
      have hmin : min 3 ((cost - avg) / avg) = 3 :=
        min_eq_left (le_of_lt hc3)
      simp only [Option.map_some', Option.some.injEq, Prod.mk.injEq, hmin]
      intro hcon
      exact absurd hcon.2 (by norm_num)
  · rw [if_neg hc3]
    by_cases hc2 : (cost - avg) / avg > 2
    · rw [if_pos hc2]
      constructor
      · refine iff_of_false ?_ (fun hcon => hc3 (h3.mpr hcon))
        have hmin : min 3 ((cost - avg) / avg) = (cost - avg) / avg :=
          min_eq_right (not_lt.mp hc3)
        simp only [Option.map_some', Option.some.injEq, Prod.mk.injEq, hmin]
        intro hcon
        rw [← hcon.2] at hc2
        norm_num at hc2
      · exact iff_of_true rfl ⟨h2.mp hc2, fun hcon => hc3 (h3.mpr hcon)⟩
    · rw [if_neg hc2]
      constructor
      · exact iff_of_false (by simp) (fun hcon => hc3 (h3.mpr hcon))
      · exact iff_of_false (by simp) (fun hcon => hc2 (h2.mpr hcon.1))

/-- C6 witness: the amended theorem applied to baseline average 1 and cost
10 (deviation 9: the full spike fires). -/
theorem C6_cost_spike_thresholds_witness :
    (0 : Rat) < 1 ∧
    ((Risk.checkCostAnomaly
        { request_id := "r2", user_id := "u", project_id := "p",
          agent_id := none, api_provider := "openai",
          model_name := "gpt-4", endpoint := "/chat",
          estimated_tokens := none, estimated_cost := 10 }
        (some { average_request_cost := 1 })).map
      (fun f => (f.factor_type, f.risk_contribution)) =
      some ("cost_spike", min 3 (((10 : Rat) - 1) / 1)) ↔
      (10 : Rat) > 4 * 1) :=
  ⟨by norm_num,
    (C6_cost_spike_thresholds
      { request_id := "r2", user_id := "u", project_id := "p",
        agent_id := none, api_provider := "openai",
        model_name := "gpt-4", endpoint := "/chat",
        estimated_tokens := none, estimated_cost := 10 }
      { average_request_cost := 1 } (by norm_num)).1⟩

/-- C4: structural validation accepts exactly the requests whose six
required fields are non-empty and whose `estimated_tokens`, when present,
lies in [0, 1000000]; every request it rejects gets a REJECTED decision at
tier SYSTEM (with the step's distinctive reasoning), and no accepted
request is rejected by this step. -/
theorem C4_structural_validation (r : APIRequest)
    (env : DecisionEngine.PipelineEnv) :
    ((DecisionEngine.validateRequestStructure r).valid = true ↔
      (r.request_id ≠ "" ∧ r.user_id ≠ "" ∧ r.project_id ≠ "" ∧
       r.api_provider ≠ "" ∧ r.model_name ≠ "" ∧ r.endpoint ≠ "" ∧
       ∀ t, r.estimated_tokens = some t → 0 ≤ t ∧ t ≤ 1000000)) ∧
    ((DecisionEngine.validateRequestStructure r).valid = false →
      (DecisionEngine.processRequest env r).outcome = .REJECTED ∧
      (DecisionEngine.processRequest env r).agent_tier = "SYSTEM" ∧
      (DecisionEngine.processRequest env r).reasoning =
        "Request validation failed") := by
  constructor
  · by_cases h1 : r.request_id = ""
    · simp [DecisionEngine.validateRequestStructure, h1]
    · by_cases h2 : r.user_id = ""
      · simp [DecisionEngine.validateRequestStructure, h1, h2]
      · by_cases h3 : r.project_id = ""
        · simp [DecisionEngine.validateRequestStructure, h1, h2, h3]
        · by_cases h4 : r.api_provider = ""
          · simp [DecisionEngine.validateRequestStructure, h1, h2, h3, h4]
          · by_cases h5 : r.model_name = ""
            · simp [DecisionEngine.validateRequestStructure,
                h1, h2, h3, h4, h5]
            · by_cases h6 : r.endpoint = ""
              · simp [DecisionEngine.validateRequestStructure,
                  h1, h2, h3, h4, h5, h6]
              · cases ht : r.estimated_tokens with
                | none =>
                    simp [DecisionEngine.validateRequestStructure,
                      h1, h2, h3, h4, h5, h6, ht]
                | some t =>
                    have lhs_iff :
                        (DecisionEngine.validateRequestStructure r).valid =
                          true ↔ (0 ≤ t ∧ t ≤ 1000000) := by
                      simp only [DecisionEngine.validateRequestStructure,
                        ht]
                      rw [if_neg h1, if_neg h2, if_neg h3, if_neg h4,
                        if_neg h5, if_neg h6]
                      split_ifs with ha hb <;> simp <;> omega
                    rw [lhs_iff]
                    constructor
                    · intro h
                      refine ⟨h1, h2, h3, h4, h5, h6, ?_⟩
                      intro t' ht'
                      cases ht'
                      omega
                    · intro h
                      exact h.2.2.2.2.2.2 t rfl
  · intro h
    refine ⟨?_, ?_, ?_⟩ <;> simp [DecisionEngine.processRequest, h]

/-- C4 witness: a request with an empty `model_name` fails structural
validation, and the pipeline returns REJECTED at tier SYSTEM on it. -/
theorem C4_structural_validation_witness :
    (DecisionEngine.validateRequestStructure
        { request_id := "req_1", user_id := "u1", project_id := "p1",
          agent_id := none, api_provider := "openai", model_name := "",
          endpoint := "/chat/completions", estimated_tokens := some 1000,
          estimated_cost := 0 }).valid = false ∧
    ((DecisionEngine.processRequest
        { user_policy := none, cost_estimate := 0,
          budget_sufficient := true, budget_available := 0,
          policy_compliant := true, policy_violations := [],
          risk_score := 0,
          evaluate := fun _ =>
            { request_id := "req_1", outcome := .APPROVED,
              reasoning := "ok", confidence := 1, agent_tier := "" } }
        { request_id := "req_1", user_id := "u1", project_id := "p1",
          agent_id := none, api_provider := "openai", model_name := "",
          endpoint := "/chat/completions", estimated_tokens := some 1000,
          estimated_cost := 0 }).outcome = .REJECTED ∧
      (DecisionEngine.processRequest
        { user_policy := none, cost_estimate := 0,
          budget_sufficient := true, budget_available := 0,
          policy_compliant := true, policy_violations := [],
          risk_score := 0,
          evaluate := fun _ =>
            { request_id := "req_1", outcome := .APPROVED,
              reasoning := "ok", confidence := 1, agent_tier := "" } }
        { request_id := "req_1", user_id := "u1", project_id := "p1",
          agent_id := none, api_provider := "openai", model_name := "",
          endpoint := "/chat/completions", estimated_tokens := some 1000,
          estimated_cost := 0 }).agent_tier = "SYSTEM" ∧
      (DecisionEngine.processRequest
        { user_policy := none, cost_estimate := 0,
          budget_sufficient := true, budget_available := 0,
          policy_compliant := true, policy_violations := [],
          risk_score := 0,
          evaluate := fun _ =>
            { request_id := "req_1", outcome := .APPROVED,
              reasoning := "ok", confidence := 1, agent_tier := "" } }
        { request_id := "req_1", user_id := "u1", project_id := "p1",
          agent_id := none, api_provider := "openai", model_name := "",
          endpoint := "/chat/completions", estimated_tokens := some 1000,
          estimated_cost := 0 }).reasoning = "Request validation failed") :=
  ⟨by decide,
    (C4_structural_validation
      { request_id := "req_1", user_id := "u1", project_id := "p1",
        agent_id := none, api_provider := "openai", model_name := "",
        endpoint := "/chat/completions", estimated_tokens := some 1000,
        estimated_cost := 0 }
      { user_policy := none, cost_estimate := 0,
        budget_sufficient := true, budget_available := 0,
        policy_compliant := true, policy_violations := [],
        risk_score := 0,
        evaluate := fun _ =>
          { request_id := "req_1", outcome := .APPROVED,
            reasoning := "ok", confidence := 1, agent_tier := "" } }).2
      (by decide)⟩

/-- C1 counterexample: with `allowed_providers` empty AND an empty
`model_name`, the pipeline still rejects — but through structural
validation, whose rejection is not the NO_PROVIDERS_CONFIGURED one (its
reason is the validation error, not the allow-list reason), because
structural validation runs before the allow-list check.  So the claim's
"regardless of any other field of the request" fails. -/
theorem C1_counterexample :
    (({ allowed_providers := [], allowed_models := [],
        forbidden_providers := [], forbidden_operations := [],
        per_request_limit := 10, daily_budget := 100,
        is_active := true } : UserPolicy).allowed_providers = []) ∧
    (DecisionEngine.processRequest
        { user_policy := some
            { allowed_providers := [], allowed_models := [],
              forbidden_providers := [], forbidden_operations := [],
              per_request_limit := 10, daily_budget := 100,
              is_active := true },
          cost_estimate := 0, budget_sufficient := true,
          budget_available := 0, policy_compliant := true,
          policy_violations := [], risk_score := 0,
          evaluate := fun _ =>
            { request_id := "req_2", outcome := .APPROVED,
              reasoning := "ok", confidence := 1, agent_tier := "" } }
        { request_id := "req_2", user_id := "u1", project_id := "p1",
          agent_id := none, api_provider := "openai", model_name := "",
          endpoint := "/chat/completions", estimated_tokens := none,
          estimated_cost := 0 }).outcome = .REJECTED ∧
    (DecisionEngine.processRequest
        { user_policy := some
            { allowed_providers := [], allowed_models := [],
              forbidden_providers := [], forbidden_operations := [],
              per_request_limit := 10, daily_budget := 100,
              is_active := true },
          cost_estimate := 0, budget_sufficient := true,
          budget_available := 0, policy_compliant := true,
          policy_violations := [], risk_score := 0,
          evaluate := fun _ =>
            { request_id := "req_2", outcome := .APPROVED,
              reasoning := "ok", confidence := 1, agent_tier := "" } }
        { request_id := "req_2", user_id := "u1", project_id := "p1",
          agent_id := none, api_provider := "openai", model_name := "",
          endpoint := "/chat/completions", estimated_tokens := none,
          estimated_cost := 0 }).rejection_reason ≠
      some "No providers configured for this project" := by
  refine ⟨rfl, by decide, by decide⟩

/-- C1 as amended: every request that PASSES structural validation is,
under a user policy with empty `allowed_providers`, rejected through the
engine's allow-list check: the decision is REJECTED at tier SYSTEM with the
NO_PROVIDERS_CONFIGURED reason, and `_validate_provider_model` reports
`rejection_type = NO_PROVIDERS_CONFIGURED` — regardless of every other
field of the request, of the policy, and of the rest of the
environment. -/
theorem C1_empty_allowlist_rejects (env : DecisionEngine.PipelineEnv)
    (r : APIRequest) (p : UserPolicy)
    (hval : (DecisionEngine.validateRequestStructure r).valid = true)
    (hpol : env.user_policy = some p)
    (hempty : p.allowed_providers = []) :
    (DecisionEngine.processRequest env r).outcome = .REJECTED ∧
    (DecisionEngine.processRequest env r).rejection_reason =
      some "No providers configured for this project" ∧
    (DecisionEngine.processRequest env r).agent_tier = "SYSTEM" ∧
    (DecisionEngine.validateProviderModel r env.user_policy).rejection_type
      = some "NO_PROVIDERS_CONFIGURED" := by
  have hpm : DecisionEngine.validateProviderModel r env.user_policy =
      ⟨false, some "No providers configured for this project",
        some "NO_PROVIDERS_CONFIGURED"⟩ := by
    rw [hpol]
    simp [DecisionEngine.validateProviderModel, hempty]
  refine ⟨?_, ?_, ?_, by rw [hpm]⟩ <;>
    simp [DecisionEngine.processRequest, hval, hpm]

/-- C1 witness: the amended theorem applied to a well-formed request under
an empty-allow-list policy. -/
theorem C1_empty_allowlist_rejects_witness :
    ((DecisionEngine.validateRequestStructure
        { request_id := "req_3", user_id := "u1", project_id := "p1",
          agent_id := none, api_provider := "openai",
          model_name := "gpt-4", endpoint := "/chat/completions",
          estimated_tokens := some 1000, estimated_cost := 0 }).valid
      = true) ∧
    (DecisionEngine.processRequest
        { user_policy := some
            { allowed_providers := [], allowed_models := [],
              forbidden_providers := [], forbidden_operations := [],
              per_request_limit := 10, daily_budget := 100,
              is_active := true },
          cost_estimate := 0, budget_sufficient := true,
          budget_available := 0, policy_compliant := true,
          policy_violations := [], risk_score := 0,
          evaluate := fun _ =>
            { request_id := "req_3", outcome := .APPROVED,
              reasoning := "ok", confidence := 1, agent_tier := "" } }
        { request_id := "req_3", user_id := "u1", project_id := "p1",
          agent_id := none, api_provider := "openai",
          model_name := "gpt-4", endpoint := "/chat/completions",
          estimated_tokens := some 1000, estimated_cost := 0 }).outcome
      = .REJECTED :=
  ⟨by decide,
    (C1_empty_allowlist_rejects
      { user_policy := some
          { allowed_providers := [], allowed_models := [],
            forbidden_providers := [], forbidden_operations := [],
            per_request_limit := 10, daily_budget := 100,
            is_active := true },
        cost_estimate := 0, budget_sufficient := true,
        budget_available := 0, policy_compliant := true,
        policy_violations := [], risk_score := 0,
        evaluate := fun _ =>
          { request_id := "req_3", outcome := .APPROVED,
            reasoning := "ok", confidence := 1, agent_tier := "" } }
      { request_id := "req_3", user_id := "u1", project_id := "p1",
        agent_id := none, api_provider := "openai",
        model_name := "gpt-4", endpoint := "/chat/completions",
        estimated_tokens := some 1000, estimated_cost := 0 }
      { allowed_providers := [], allowed_models := [],
        forbidden_providers := [], forbidden_operations := [],
        per_request_limit := 10, daily_budget := 100, is_active := true }
      (by decide) rfl rfl).1⟩

/-- C3 counterexample: on a policy with empty `allowed_providers` (and no
entry in `allowed_models`), the Decision Engine's direct allow-list check
DENIES (NO_PROVIDERS_CONFIGURED) while the Policy Manager's replayed
provider/model whitelist validation ALLOWS (it treats the empty lists as
"no restrictions set", recording only warnings) — the two checks do not
agree precisely in the case the claim highlights. -/
theorem C3_counterexample :
    (DecisionEngine.validateProviderModel
        { request_id := "req_4", user_id := "u1", project_id := "p1",
          agent_id := none, api_provider := "openai",
          model_name := "gpt-4", endpoint := "/chat/completions",
          estimated_tokens := none, estimated_cost := 0 }
        (some { allowed_providers := [], allowed_models := [],
                forbidden_providers := [], forbidden_operations := [],
                per_request_limit := 10, daily_budget := 100,
                is_active := true })).valid = false ∧
    (PolicyManager.allowListCheck "openai" "gpt-4"
        { allowed_providers := [], allowed_models := [],
          forbidden_providers := [], forbidden_operations := [],
          per_request_limit := 10, daily_budget := 100,
          is_active := true }).1 = true := by
  refine ⟨by decide, by decide⟩

/-- C3 as amended: the engine's allow-list check and the Policy Manager's
replayed provider/model whitelist validation agree whenever
`allowed_providers` is non-empty, `allowed_models` has an entry for the
request's provider, and the provider is not deny-listed; when
`allowed_providers` is empty or the provider has no `allowed_models` entry,
the Policy Manager allows (treating the absence as "no restrictions") while
the engine rejects. -/
theorem C3_allowlist_agreement (r : APIRequest) (p : UserPolicy)
    (ms : List String)
    (hne : p.allowed_providers ≠ [])
    (hmodels : p.modelsFor r.api_provider = some ms)
    (hforb : r.api_provider ∉ p.forbidden_providers) :
    (DecisionEngine.validateProviderModel r (some p)).valid =
      (PolicyManager.allowListCheck r.api_provider r.model_name p).1 := by
  by_cases hprov : r.api_provider ∈ p.allowed_providers
  · by_cases hm : r.model_name ∈ ms
    · have hms : ms ≠ [] := List.ne_nil_of_mem hm
      have e1 : (DecisionEngine.validateProviderModel r (some p)).valid =
          true := by
        simp [DecisionEngine.validateProviderModel, hne, hprov, hmodels,
          hms, hm]
      have e2 : (PolicyManager.allowListCheck r.api_provider r.model_name
          p).1 = true := by
        simp [PolicyManager.allowListCheck, PolicyManager.validateProvider,
          PolicyManager.validateModel, hforb, hne, hprov, hmodels, hm]
      rw [e1, e2]
    · have e1 : (DecisionEngine.validateProviderModel r (some p)).valid =
          false := by
        by_cases hms : ms = [] <;>
          simp [DecisionEngine.validateProviderModel, hne, hprov, hmodels,
            hms, hm]
      have e2 : (PolicyManager.allowListCheck r.api_provider r.model_name
          p).1 = false := by
        simp [PolicyManager.allowListCheck, PolicyManager.validateProvider,
          PolicyManager.validateModel, hforb, hne, hprov, hmodels, hm]
      rw [e1, e2]
  · have e1 : (DecisionEngine.validateProviderModel r (some p)).valid =
        false := by
      simp [DecisionEngine.validateProviderModel, hne, hprov]
    have e2 : (PolicyManager.allowListCheck r.api_provider r.model_name
        p).1 = false := by
      simp [PolicyManager.allowListCheck, PolicyManager.validateProvider,
        hforb, hne, hprov]
    rw [e1, e2]

/-- C3 witness: the amended agreement applied to a policy that allows
`openai` with models `[gpt-4]` — for an allowed pair, both checks say
allow. -/
theorem C3_allowlist_agreement_witness :
    (({ allowed_providers := ["openai"],
        allowed_models := [("openai", ["gpt-4"])],
        forbidden_providers := [], forbidden_operations := [],
        per_request_limit := 10, daily_budget := 100,
        is_active := true } : UserPolicy).allowed_providers ≠ []) ∧
    (DecisionEngine.validateProviderModel
        { request_id := "req_5", user_id := "u1", project_id := "p1",
          agent_id := none, api_provider := "openai",
          model_name := "gpt-4", endpoint := "/chat/completions",
          estimated_tokens := none, estimated_cost := 0 }
        (some { allowed_providers := ["openai"],
                allowed_models := [("openai", ["gpt-4"])],
                forbidden_providers := [], forbidden_operations := [],
                per_request_limit := 10, daily_budget := 100,
                is_active := true })).valid =
      (PolicyManager.allowListCheck "openai" "gpt-4"
        { allowed_providers := ["openai"],
          allowed_models := [("openai", ["gpt-4"])],
          forbidden_providers := [], forbidden_operations := [],
          per_request_limit := 10, daily_budget := 100,
          is_active := true }).1 :=
  ⟨by decide,
    C3_allowlist_agreement
      { request_id := "req_5", user_id := "u1", project_id := "p1",
        agent_id := none, api_provider := "openai",
        model_name := "gpt-4", endpoint := "/chat/completions",
        estimated_tokens := none, estimated_cost := 0 }
      { allowed_providers := ["openai"],
        allowed_models := [("openai", ["gpt-4"])],
        forbidden_providers := [], forbidden_operations := [],
        per_request_limit := 10, daily_budget := 100, is_active := true }
      ["gpt-4"] (by decide) (by decide) (by decide)⟩

/-- `calculate_hash` reads only the hashed projection of an entry. -/
theorem calculateHash_congr {a b : BackendAudit.AuditEntry}
    (h : BackendAudit.hashedProjection a = BackendAudit.hashedProjection b) :
    BackendAudit.calculateHash a = BackendAudit.calculateHash b := by
  simp only [BackendAudit.hashedProjection, Prod.mk.injEq] at h
  obtain ⟨h1, h2, h3, h4, h5, h6, h7, h8⟩ := h
  simp [BackendAudit.calculateHash, h1, h2, h3, h4, h5, h6, h7]

/-- `verify_integrity`'s worker reads only the hashed projection of each
entry. -/
theorem verifyFrom_congr {l₁ l₂ : List BackendAudit.AuditEntry}
    (hrel : List.Forall₂
      (fun a b => BackendAudit.hashedProjection a =
        BackendAudit.hashedProjection b) l₁ l₂) :
    ∀ ph, BackendAudit.verifyFrom ph l₁ = BackendAudit.verifyFrom ph l₂ := by
  induction hrel with
  | nil => intro ph; rfl
  | cons hab hrest ih =>
      intro ph
      rename_i a b l₁' l₂'
      have hcalc := calculateHash_congr hab
      simp only [BackendAudit.hashedProjection, Prod.mk.injEq] at hab
      obtain ⟨-, -, -, -, -, -, h7, h8⟩ := hab
      simp only [BackendAudit.verifyFrom, hcalc, h7, h8]
      by_cases hh : b.entry_hash ≠ some (BackendAudit.calculateHash b)
      · simp [hh]
      · cases ph with
        | none => simp [hh, ih]
        | some x =>
            by_cases hp : b.previous_hash ≠ x
            · simp [hh, hp]
            · simp [hh, hp, ih]

/-- Appending an entry whose stored hash is correct and whose
`previous_hash` matches the current chain tail preserves verification. -/
theorem verifyFrom_snoc (l : List BackendAudit.AuditEntry)
    (ph : Option (Option String)) (e : BackendAudit.AuditEntry)
    (hl : BackendAudit.verifyFrom ph l = true)
    (he : e.entry_hash = some (BackendAudit.calculateHash e))
    (hlink : ∀ x, BackendAudit.lastEntryHash ph l = some x →
      e.previous_hash = x) :
    BackendAudit.verifyFrom ph (l ++ [e]) = true := by
  induction l generalizing ph with
  | nil =>
      simp only [List.nil_append, BackendAudit.verifyFrom]
      rw [if_neg (by simp [he])]
      cases ph with
      | none => rfl
      | some x =>
          dsimp only
          rw [if_neg (by simp [hlink x rfl])]
  | cons a l ih =>
      simp only [BackendAudit.verifyFrom] at hl
      by_cases ha : a.entry_hash ≠ some (BackendAudit.calculateHash a)
      · simp [ha] at hl
      · simp only [List.cons_append, BackendAudit.verifyFrom]
        rw [if_neg ha]
        rw [if_neg ha] at hl
        have step : ∀ x, BackendAudit.lastEntryHash (some a.entry_hash) l
            = some x → e.previous_hash = x := by
          intro x hx
          apply hlink
          cases l with
          | nil => exact hx
          | cons b l' => exact hx
        cases ph with
        | none =>
            dsimp only at hl ⊢
            exact ih (some a.entry_hash) hl step
        | some x =>
            dsimp only at hl ⊢
            by_cases hp : a.previous_hash ≠ x
            · simp [hp] at hl
            · rw [if_neg hp] at hl ⊢
              exact ih (some a.entry_hash) hl step

/-- Every chain built by `add_entry` verifies. -/
theorem verify_foldl_addEntry (es : List BackendAudit.AuditEntry)
    (l : List BackendAudit.AuditEntry)
    (hl : BackendAudit.verify_integrity l = true) :
    BackendAudit.verify_integrity
      (es.foldl BackendAudit.addEntry l) = true := by
  induction es generalizing l with
  | nil => exact hl
  | cons e es ih =>
      refine ih (BackendAudit.addEntry l e) ?_
      unfold BackendAudit.addEntry
      cases hlast : l.getLast? with
      | none =>
          refine verifyFrom_snoc l none _ hl rfl ?_
          intro x hx
          simp [BackendAudit.lastEntryHash, hlast] at hx
      | some last =>
          refine verifyFrom_snoc l none _ hl rfl ?_
          intro x hx
          simp only [BackendAudit.lastEntryHash, hlast,
            Option.some.injEq] at hx
          simp [← hx]

set_option maxRecDepth 100000 in
/-- C2 counterexample: in a two-entry chain built by `add_entry`, mutating
the second entry's `user_id` (keeping its stored `entry_hash`) changes the
event but leaves `verify_integrity` TRUE — `calculate_hash` never reads
`user_id` (nor `project_id`, `agent_id`, `context_snapshot` or `error`), so
the claim that mutating any single field breaks verification is false. -/
theorem C2_counterexample :
    ((BackendAudit.addEntry (BackendAudit.addEntry []
        { log_id := "log_1", request_id := some "req_1",
          user_id := some "alice", project_id := some "proj",
          agent_id := none, event_type := "request_received",
          event_details := .obj [("note", .str "hello")],
          context_snapshot := .obj [], result := "success", error := none,
          timestamp := "2026-01-01T00:00:00", previous_hash := none,
          entry_hash := none })
        { log_id := "log_2", request_id := some "req_1",
          user_id := some "alice", project_id := some "proj",
          agent_id := none, event_type := "policy_check",
          event_details := .obj [("compliant", .bool true)],
          context_snapshot := .obj [], result := "success", error := none,
          timestamp := "2026-01-01T00:00:01", previous_hash := none,
          entry_hash := none }).map (·.user_id) ≠
      ((BackendAudit.addEntry (BackendAudit.addEntry []
        { log_id := "log_1", request_id := some "req_1",
          user_id := some "alice", project_id := some "proj",
          agent_id := none, event_type := "request_received",
          event_details := .obj [("note", .str "hello")],
          context_snapshot := .obj [], result := "success", error := none,
          timestamp := "2026-01-01T00:00:00", previous_hash := none,
          entry_hash := none })
        { log_id := "log_2", request_id := some "req_1",
          user_id := some "alice", project_id := some "proj",
          agent_id := none, event_type := "policy_check",
          event_details := .obj [("compliant", .bool true)],
          context_snapshot := .obj [], result := "success", error := none,
          timestamp := "2026-01-01T00:00:01", previous_hash := none,
          entry_hash := none }).map (fun e =>
            if e.log_id = "log_2" then { e with user_id := some "mallory" }
            else e)).map (·.user_id)) ∧
    ((BackendAudit.addEntry (BackendAudit.addEntry []
        { log_id := "log_1", request_id := some "req_1",
          user_id := some "alice", project_id := some "proj",
          agent_id := none, event_type := "request_received",
          event_details := .obj [("note", .str "hello")],
          context_snapshot := .obj [], result := "success", error := none,
          timestamp := "2026-01-01T00:00:00", previous_hash := none,
          entry_hash := none })
        { log_id := "log_2", request_id := some "req_1",
          user_id := some "alice", project_id := some "proj",
          agent_id := none, event_type := "policy_check",
          event_details := .obj [("compliant", .bool true)],
          context_snapshot := .obj [], result := "success", error := none,
          timestamp := "2026-01-01T00:00:01", previous_hash := none,
          entry_hash := none }).map (·.entry_hash) =
      ((BackendAudit.addEntry (BackendAudit.addEntry []
        { log_id := "log_1", request_id := some "req_1",
          user_id := some "alice", project_id := some "proj",
          agent_id := none, event_type := "request_received",
          event_details := .obj [("note", .str "hello")],
          context_snapshot := .obj [], result := "success", error := none,
          timestamp := "2026-01-01T00:00:00", previous_hash := none,
          entry_hash := none })
        { log_id := "log_2", request_id := some "req_1",
          user_id := some "alice", project_id := some "proj",
          agent_id := none, event_type := "policy_check",
          event_details := .obj [("compliant", .bool true)],
          context_snapshot := .obj [], result := "success", error := none,
          timestamp := "2026-01-01T00:00:01", previous_hash := none,
          entry_hash := none }).map (fun e =>
            if e.log_id = "log_2" then { e with user_id := some "mallory" }
            else e)).map (·.entry_hash)) ∧
    BackendAudit.verify_integrity
      ((BackendAudit.addEntry (BackendAudit.addEntry []
        { log_id := "log_1", request_id := some "req_1",
          user_id := some "alice", project_id := some "proj",
          agent_id := none, event_type := "request_received",
          event_details := .obj [("note", .str "hello")],
          context_snapshot := .obj [], result := "success", error := none,
          timestamp := "2026-01-01T00:00:00", previous_hash := none,
          entry_hash := none })
        { log_id := "log_2", request_id := some "req_1",
          user_id := some "alice", project_id := some "proj",
          agent_id := none, event_type := "policy_check",
          event_details := .obj [("compliant", .bool true)],
          context_snapshot := .obj [], result := "success", error := none,
          timestamp := "2026-01-01T00:00:01", previous_hash := none,
          entry_hash := none }).map (fun e =>
            if e.log_id = "log_2" then { e with user_id := some "mallory" }
            else e)) = true := by
  refine ⟨by decide, rfl, by decide⟩

/-- C2 as amended: the stored `entry_hash` is the SHA-256 of the canonical
sorted-key serialization of ONLY `{log_id, request_id, event_type,
timestamp, event_details, result}` combined with `previous_hash` — so every
chain built by `add_entry` verifies, and verification is unchanged by any
per-entry mutation that preserves those hashed fields (together with the
stored `previous_hash` and `entry_hash`), such as changes to `user_id`,
`project_id`, `agent_id`, `context_snapshot` or `error`; mutating a hashed
field is what verification detects. -/
theorem C2_hash_covers_hashed_fields_only
    (es : List BackendAudit.AuditEntry)
    (mutated : List BackendAudit.AuditEntry)
    (hrel : List.Forall₂
      (fun a b => BackendAudit.hashedProjection a =
        BackendAudit.hashedProjection b)
      (es.foldl BackendAudit.addEntry []) mutated) :
    BackendAudit.verify_integrity (es.foldl BackendAudit.addEntry [])
      = true ∧
    BackendAudit.verify_integrity mutated = true := by
  have h1 := verify_foldl_addEntry es [] rfl
  refine ⟨h1, ?_⟩
  have := verifyFrom_congr hrel none
  unfold BackendAudit.verify_integrity at h1 ⊢
  rw [← this]
  exact h1

set_option maxRecDepth 100000 in
/-- C2 witness: the amended theorem applied to a one-entry chain and its
`project_id`-mutated copy. -/
theorem C2_hash_covers_hashed_fields_only_witness :
    BackendAudit.verify_integrity
      ([({ log_id := "log_9", request_id := some "req_9",
           user_id := some "alice", project_id := some "proj",
           agent_id := none, event_type := "request_received",
           event_details := .obj [], context_snapshot := .obj [],
           result := "success", error := none,
           timestamp := "2026-01-02T00:00:00", previous_hash := none,
           entry_hash := none } : BackendAudit.AuditEntry)].foldl
        BackendAudit.addEntry []) = true ∧
    BackendAudit.verify_integrity
      (([({ log_id := "log_9", request_id := some "req_9",
            user_id := some "alice", project_id := some "proj",
            agent_id := none, event_type := "request_received",
            event_details := .obj [], context_snapshot := .obj [],
            result := "success", error := none,
            timestamp := "2026-01-02T00:00:00", previous_hash := none,
            entry_hash := none } : BackendAudit.AuditEntry)].foldl
        BackendAudit.addEntry []).map
          (fun e => { e with project_id := some "other" })) = true :=
  C2_hash_covers_hashed_fields_only
    [{ log_id := "log_9", request_id := some "req_9",
       user_id := some "alice", project_id := some "proj",
       agent_id := none, event_type := "request_received",
       event_details := .obj [], context_snapshot := .obj [],
       result := "success", error := none,
       timestamp := "2026-01-02T00:00:00", previous_hash := none,
       entry_hash := none }]
    (([({ log_id := "log_9", request_id := some "req_9",
          user_id := some "alice", project_id := some "proj",
          agent_id := none, event_type := "request_received",
          event_details := .obj [], context_snapshot := .obj [],
          result := "success", error := none,
          timestamp := "2026-01-02T00:00:00", previous_hash := none,
          entry_hash := none } : BackendAudit.AuditEntry)].foldl
      BackendAudit.addEntry []).map
        (fun e => { e with project_id := some "other" }))
    (by exact .cons rfl .nil)

/-- Appending an event whose `previous_hash` is the current chain head
preserves the chain condition. -/
theorem chainFrom_snoc (l : List AuditLogging.AuditEvent)
    (ph : Option String) (e : AuditLogging.AuditEvent)
    (hl : AuditLogging.chainFrom ph l = true)
    (he : e.previous_hash = AuditLogging.tailHash ph l) :
    AuditLogging.chainFrom ph (l ++ [e]) = true := by
  induction l generalizing ph with
  | nil =>
      simp only [AuditLogging.tailHash, List.getLast?_nil] at he
      simp [AuditLogging.chainFrom, he]
  | cons a l ih =>
      simp only [AuditLogging.chainFrom] at hl
      by_cases hp : a.previous_hash = ph
      · simp only [List.cons_append, AuditLogging.chainFrom]
        rw [if_pos hp]
        rw [if_pos hp] at hl
        refine ih a.current_hash hl ?_
        rw [he]
        cases l with
        | nil => rfl
        | cons b l' => rfl
      · rw [if_neg hp] at hl
        exact absurd hl (by simp)

/-- Invariant of the audit-logger write path: the written day file is
hash-chained from the initial head, and `_last_hash` is always the chain
tail. -/
theorem run_chain_invariant (calls : List AuditLogging.AuditCall)
    (st : AuditLogging.LoggerState)
    (hchain : AuditLogging.chainFrom none st.written = true)
    (hlast : st.lastHash = AuditLogging.tailHash none st.written) :
    AuditLogging.chainFrom none
      (calls.foldl AuditLogging.step st).written = true ∧
    (calls.foldl AuditLogging.step st).lastHash =
      AuditLogging.tailHash none
        (calls.foldl AuditLogging.step st).written := by
  induction calls generalizing st with
  | nil => exact ⟨hchain, hlast⟩
  | cons c calls ih =>
      refine ih (AuditLogging.step st c) ?_ ?_
      · cases c <;>
          exact chainFrom_snoc st.written none _ hchain hlast
      · cases c <;>
          simp [AuditLogging.step, AuditLogging.tailHash,
            List.getLast?_concat]

/-- C7 as amended: the audit logger chains events through the PROCESS-WIDE
head `_last_hash`, so for every sequence of audit-logging calls, every
written event's `previous_hash` equals the `current_hash` of the
immediately preceding event of the whole day file (regardless of request
id); within one request's trail the claimed per-trail equality therefore
holds only when no event of another request intervenes. -/
theorem C7_global_chain (calls : List AuditLogging.AuditCall) :
    AuditLogging.chainFrom none (AuditLogging.run calls).written = true :=
  (run_chain_invariant calls AuditLogging.initialState rfl rfl).1

set_option maxRecDepth 100000 in
/-- C7 counterexample: interleave request B between two events of request
A.  Request A's trail then holds two events whose link goes through B's
event: the second A event's `previous_hash` is B's `current_hash`, not the
first A event's — the per-trail chaining the claim states fails under
interleaving. -/
theorem C7_counterexample :
    ((AuditLogging.findTrail
        (AuditLogging.run
          [.requestReceived "log_a1" "2026-01-01T00:00:00" "reqA" "alice"
             "proj" none (.obj []),
           .requestReceived "log_b1" "2026-01-01T00:00:01" "reqB" "bob"
             "proj" none (.obj []),
           .requestReceived "log_a2" "2026-01-01T00:00:02" "reqA" "alice"
             "proj" none (.obj [])]).trails "reqA").getD []).length = 2 ∧
    (((AuditLogging.findTrail
        (AuditLogging.run
          [.requestReceived "log_a1" "2026-01-01T00:00:00" "reqA" "alice"
             "proj" none (.obj []),
           .requestReceived "log_b1" "2026-01-01T00:00:01" "reqB" "bob"
             "proj" none (.obj []),
           .requestReceived "log_a2" "2026-01-01T00:00:02" "reqA" "alice"
             "proj" none (.obj [])]).trails "reqA").getD []).map
        (fun e => e.previous_hash))[1]? ≠
    some ((((AuditLogging.findTrail
        (AuditLogging.run
          [.requestReceived "log_a1" "2026-01-01T00:00:00" "reqA" "alice"
             "proj" none (.obj []),
           .requestReceived "log_b1" "2026-01-01T00:00:01" "reqB" "bob"
             "proj" none (.obj []),
           .requestReceived "log_a2" "2026-01-01T00:00:02" "reqA" "alice"
             "proj" none (.obj [])]).trails "reqA").getD []).map
        (fun e => e.current_hash))[0]?.getD none) := by
  refine ⟨by decide, by decide⟩
